import Mathlib

/-!
Shallow embedding of `apps.py` (Delhi District Courts cause-list downloader).

Python strings are modelled as lists of characters (`Str`).  The character
classes of the regexes (`\w`, `\s`) and of `str.lower` / `str.strip` are
modelled on their ASCII fragment; every character any claim turns on
(slash, backslash, dot, underscore, parentheses, letters, digits, hyphen,
space) classifies identically under full Unicode semantics.

Network effects are made explicit: a call to `requests.get` is modelled by a
`RequestResult` (either a `Response` with a status code and a byte body, or
`error` for a raised exception, i.e. a transport failure or timeout), and
the functions that perform requests take an oracle `net : Str → RequestResult`
giving the outcome of the GET for each URL.  HTML parsing (BeautifulSoup) is
external to the program and is passed as a function `parse` from the fetched
body to the list of its anchor tags.  Writing a file to disk is modelled by
returning the path that the code would write to.
-/

set_option linter.unusedVariables false
set_option maxRecDepth 8000

namespace ECourts

/-- A Python string, modelled as its list of characters. -/
abbrev Str := List Char

/-- Conversion from a Lean string literal to the `Str` model. -/
def str (s : String) : Str := s.toList

/-- `leadsWith pre s` models Python `s.startswith(pre)`. -/
def leadsWith : Str → Str → Bool
  | [], _ => true
  | _ :: _, [] => false
  | a :: as, b :: bs => a == b && leadsWith as bs

/-- `hasSub needle hay` models Python `needle in hay` (substring test). -/
def hasSub (needle : Str) : Str → Bool
  | [] => leadsWith needle []
  | c :: rest => leadsWith needle (c :: rest) || hasSub needle rest

/-- Models Python `s.lower()` (ASCII fragment). -/
def pyLower (s : Str) : Str := s.map Char.toLower

/-- Models Python `s.strip()`: drop leading and trailing whitespace. -/
def pyStrip (s : Str) : Str :=
  ((s.dropWhile Char.isWhitespace).reverse.dropWhile Char.isWhitespace).reverse

/-- `apps.py` line 16. -/
def DELHI_BASE_URL : Str := str "https://newdelhi.dcourts.gov.in"

/-- `apps.py` line 17. -/
def DELHI_CAUSELIST_URL : Str := DELHI_BASE_URL ++ str "/cause-list-%e2%81%84-daily-board/"

/-- `apps.py` lines 24-30: display name to slug. -/
def DELHI_COURTS : List (Str × Str) :=
  [(str "Patiala House Court Complex", str "patiala-house"),
   (str "Tis Hazari Court", str "tis-hazari"),
   (str "Karkardooma Court", str "karkardooma"),
   (str "Delhi High Court", str "dhc"),
   (str "Special CBI Courts", str "cbi-courts")]

/-- An HTTP response: final status code and body bytes (`response.content`). -/
structure Response where
  status_code : Nat
  content : List Nat
deriving DecidableEq

/-- Outcome of a `requests.get` call: a response, or a raised exception
(transport failure, DNS error, timeout). -/
inductive RequestResult where
  | ok (response : Response)
  | error
deriving DecidableEq

/-- `apps.py` lines 34-41, `safe_request`: returns the response, or `none` when
the GET raised (transport error / timeout) or when `raise_for_status` raised,
which `requests` documents for status codes 400-599. -/
def safe_request : RequestResult → Option Response
  | .error => none
  | .ok r => if 400 ≤ r.status_code ∧ r.status_code < 600 then none else some r

/-- An HTML anchor tag: its `href` attribute and its visible text.  The text
field holds the raw text; the code reads it through `get_text(strip=True)`,
modelled by applying `pyStrip`. -/
structure Anchor where
  href : Str
  text : Str
deriving DecidableEq

/-- The PdfLink record built at `apps.py` lines 85-89. -/
structure PdfLink where
  name : Str
  url : Str
  judge : Str
deriving DecidableEq

/-- `apps.py` line 68: the anchor filter `re.compile(r'\.pdf', re.I)` applied
to the href by BeautifulSoup via `search`: the href contains `.pdf`
case-insensitively. -/
def pdfHrefMatch (href : Str) : Bool := hasSub (str ".pdf") (pyLower href)

/-- `apps.py` lines 74-77: make the (stripped) href absolute. -/
def makeAbsoluteUrl (href : Str) : Str :=
  if leadsWith (str "http") href then href
  else if leadsWith (str "/") href then DELHI_BASE_URL ++ href
  else DELHI_BASE_URL ++ str "/" ++ href

/-- `apps.py` lines 68-89: the body of the link-discovery loop for one anchor:
`none` when the anchor is skipped, `some` the PdfLink appended otherwise. -/
def processAnchor (court_complex : Str) (link : Anchor) : Option PdfLink :=
  if !pdfHrefMatch link.href then none
  else
    let href := pyStrip link.href
    if href.isEmpty then none
    else
      let full_url := makeAbsoluteUrl href
      let link_text := pyStrip link.text
      if link_text.isEmpty then none
      else if !court_complex.isEmpty && !hasSub (pyLower court_complex) (pyLower link_text)
        then none
      else some ⟨link_text, full_url, link_text⟩

/-- The date selected in the UI. -/
structure Date where
  day : Nat
  month : Nat
  year : Nat
deriving DecidableEq

/-- `apps.py` lines 57-95, `get_pdf_links_for_court_and_date`: fetch the fixed
cause-list page, and on success filter its anchors; on a failed fetch return
the empty list.  `date_obj` is accepted but never used, as in the source. -/
def get_pdf_links_for_court_and_date (net : Str → RequestResult)
    (parse : List Nat → List Anchor) (date_obj : Date) (court_complex : Str) :
    List PdfLink :=
  match safe_request (net DELHI_CAUSELIST_URL) with
  | none => []
  | some response => (parse response.content).filterMap (processAnchor court_complex)

/-- A decimal digit character; `digitChar n` renders `n % 10`. -/
def digitChar (n : Nat) : Char :=
  if n % 10 = 0 then '0' else if n % 10 = 1 then '1' else if n % 10 = 2 then '2'
  else if n % 10 = 3 then '3' else if n % 10 = 4 then '4' else if n % 10 = 5 then '5'
  else if n % 10 = 6 then '6' else if n % 10 = 7 then '7' else if n % 10 = 8 then '8'
  else '9'

/-- `apps.py` line 122: `date_obj.strftime("%d-%m-%Y")` — zero-padded
two-digit day and month and four-digit year (the UI only supplies dates
within ±30 days of today, so years have four digits). -/
def format_date (d : Date) : Str :=
  [digitChar (d.day / 10), digitChar d.day, '-',
   digitChar (d.month / 10), digitChar d.month, '-',
   digitChar (d.year / 1000), digitChar (d.year / 100), digitChar (d.year / 10),
   digitChar d.year]

/-- The character class `[\w\s-]` of the regex at `apps.py` line 134 (ASCII
fragment): word characters (letters, digits, underscore), whitespace, hyphen. -/
def keepChar (c : Char) : Bool :=
  c.isAlphanum || c == '_' || c.isWhitespace || c == '-'

/-- `apps.py` line 134: `re.sub(r'[^\w\s-]', '', judge_name)[:40]`. -/
def sanitize_judge (judge_name : Str) : Str := (judge_name.filter keepChar).take 40

/-- `apps.py` lines 134-135: the composed filename
`CauseList_{court_complex}_{safe_judge}_{date_str}.pdf`. -/
def make_filename (court_complex : Str) (judge_name : Str) (date_str : Str) : Str :=
  str "CauseList_" ++ court_complex ++ str "_" ++ sanitize_judge judge_name ++
    str "_" ++ date_str ++ str ".pdf"

/-- The DownloadedFile record built at `apps.py` lines 141-145. -/
structure DownloadedFile where
  judge : Str
  filepath : Str
  filename : Str
deriving DecidableEq

/-- `apps.py` lines 97-111, `download_pdf`: `none` when the request failed, the
status is not exactly 200, or the body has at most 1000 bytes; otherwise the
file is written under `downloaded_pdfs` (`os.path.join`) and its path
returned. -/
def download_pdf (outcome : RequestResult) (filename : Str) : Option Str :=
  match safe_request outcome with
  | none => none
  | some response =>
      if response.status_code = 200 ∧ 1000 < response.content.length then
        some (str "downloaded_pdfs/" ++ filename)
      else none

/-- `apps.py` lines 129-150: the download loop with its accumulator
`downloaded_files`; a successful item appends its record, a failed one only
emits a transient warning. -/
def downloadLoop (net : Str → RequestResult) (court_complex : Str) (date_str : Str) :
    List PdfLink → List DownloadedFile → List DownloadedFile
  | [], downloaded_files => downloaded_files
  | pdf_link :: rest, downloaded_files =>
      let filename := make_filename court_complex pdf_link.judge date_str
      match download_pdf (net pdf_link.url) filename with
      | some filepath =>
          downloadLoop net court_complex date_str rest
            (downloaded_files ++ [⟨pdf_link.judge, filepath, filename⟩])
      | none => downloadLoop net court_complex date_str rest downloaded_files

/-- `apps.py` lines 113-159, `download_all_judges_pdfs`. -/
def download_all_judges_pdfs (net : Str → RequestResult)
    (parse : List Nat → List Anchor) (date_obj : Date) (court_complex : Str) :
    List DownloadedFile :=
  let pdf_links := get_pdf_links_for_court_and_date net parse date_obj court_complex
  if pdf_links.isEmpty then []
  else downloadLoop net court_complex (format_date date_obj) pdf_links []

/-- The outcome of one item of the download loop: the record appended for
`pdf_link` when its download succeeds, `none` when it fails. -/
def dlSucc (net : Str → RequestResult) (court_complex : Str) (date_str : Str)
    (pdf_link : PdfLink) : Option DownloadedFile :=
  (download_pdf (net pdf_link.url) (make_filename court_complex pdf_link.judge date_str)).map
    (fun filepath => ⟨pdf_link.judge, filepath, make_filename court_complex pdf_link.judge date_str⟩)

/-- Whether the link-discovery loop keeps an anchor, for a non-empty
court-complex string: the href matches the `.pdf` pattern, the stripped
visible text is non-empty, and the text contains the court-complex string
case-insensitively. -/
def anchorKeeps (court_complex : Str) (a : Anchor) : Bool :=
  pdfHrefMatch a.href && !(pyStrip a.text).isEmpty &&
    hasSub (pyLower court_complex) (pyLower (pyStrip a.text))

/-- The PdfLink built from a kept anchor. -/
def anchorLink (a : Anchor) : PdfLink :=
  ⟨pyStrip a.text, makeAbsoluteUrl (pyStrip a.href), pyStrip a.text⟩

/-- Modelled from the spec: a 2xx HTTP status (used to state the claim that a
non-2xx status yields an empty discovery result). -/
def is2xx (status : Nat) : Bool := 200 ≤ status && status < 300

/-- Modelled from the spec: the tail of a URL scheme — letters until a colon. -/
def schemeTail : Str → Bool
  | [] => false
  | c :: rest => c == ':' || (c.isAlpha && schemeTail rest)

/-- Modelled from the spec: "if the href already has a scheme" — the href
begins with a URL scheme, i.e. a letter, then letters up to a colon
(RFC 3986 scheme, restricted to letters). -/
def specHasScheme : Str → Bool
  | [] => false
  | c :: rest => c.isAlpha && schemeTail rest

/-- Modelled from the spec: "strip every character that is not alphanumeric,
whitespace, or hyphen from the judge label, then truncate to 40 characters"
(note: no underscore). -/
def spec_sanitize (judge : Str) : Str :=
  (judge.filter (fun c => c.isAlphanum || c.isWhitespace || c == '-')).take 40

/-! ### Helper lemmas -/

lemma mem_of_hasSub_cons {c : Char} {ns hay : Str} (h : hasSub (c :: ns) hay = true) :
    c ∈ hay := by
  induction hay with
  | nil => simp [hasSub, leadsWith] at h
  | cons b bs ih =>
      rw [hasSub, Bool.or_eq_true] at h
      rcases h with h | h
      · rw [leadsWith, Bool.and_eq_true] at h
        have hb : c = b := by
          have := h.1
          simpa using this
        simp [hb]
      · exact List.mem_cons_of_mem _ (ih h)

lemma mem_dropWhile_of_not {p : Char → Bool} {c : Char} {l : Str}
    (hc : c ∈ l) (hpc : p c = false) : c ∈ l.dropWhile p := by
  induction l with
  | nil => simp at hc
  | cons a as ih =>
      by_cases hpa : p a = true
      · rw [List.dropWhile_cons_of_pos hpa]
        rcases List.mem_cons.mp hc with rfl | hmem
        · rw [hpa] at hpc; cases hpc
        · exact ih hmem
      · rw [List.dropWhile_cons_of_neg hpa]
        exact hc

lemma pyStrip_ne_nil_of_mem {c : Char} {s : Str} (hc : c ∈ s)
    (hw : c.isWhitespace = false) : pyStrip s ≠ [] := by
  intro hnil
  unfold pyStrip at hnil
  rw [List.reverse_eq_nil_iff] at hnil
  have h1 : c ∈ (s.dropWhile Char.isWhitespace).reverse := by
    rw [List.mem_reverse]
    exact mem_dropWhile_of_not hc hw
  have h2 : c ∈ (s.dropWhile Char.isWhitespace).reverse.dropWhile Char.isWhitespace :=
    mem_dropWhile_of_not h1 hw
  rw [hnil] at h2
  simp at h2

lemma not_ws_of_toLower_dot {c : Char} (h : c.toLower = '.') :
    c.isWhitespace = false := by
  cases hw : c.isWhitespace with
  | false => rfl
  | true =>
      exfalso
      have hcases := hw
      simp only [Char.isWhitespace, Bool.or_eq_true, decide_eq_true_eq] at hcases
      rcases hcases with ((rfl | rfl) | rfl) | rfl <;> exact absurd h (by decide)

lemma pdfHrefMatch_strip_ne {href : Str} (h : pdfHrefMatch href = true) :
    (pyStrip href).isEmpty = false := by
  have hdot : '.' ∈ pyLower href := mem_of_hasSub_cons h
  rw [pyLower, List.mem_map] at hdot
  obtain ⟨c, hc, hlow⟩ := hdot
  have hw : c.isWhitespace = false := not_ws_of_toLower_dot hlow
  have := pyStrip_ne_nil_of_mem hc hw
  cases hs : pyStrip href with
  | nil => exact absurd hs this
  | cons a as => rfl

lemma processAnchor_eq {court_complex : Str} (hcc : court_complex ≠ [])
    (a : Anchor) :
    processAnchor court_complex a
      = if anchorKeeps court_complex a then some (anchorLink a) else none := by
  unfold processAnchor anchorKeeps anchorLink
  have hccE : court_complex.isEmpty = false := by
    cases court_complex with
    | nil => exact absurd rfl hcc
    | cons c cs => rfl
  cases hm : pdfHrefMatch a.href with
  | false => simp [hm]
  | true =>
      have hst := pdfHrefMatch_strip_ne hm
      cases ht : (pyStrip a.text).isEmpty with
      | true => simp [hm, hst, ht]
      | false =>
          cases hsub : hasSub (pyLower court_complex) (pyLower (pyStrip a.text)) with
          | false => simp [hm, hst, ht, hccE, hsub]
          | true => simp [hm, hst, ht, hccE, hsub]

lemma filterMap_ite_eq {α β : Type} (p : α → Bool) (f : α → β) (l : List α) :
    l.filterMap (fun a => if p a then some (f a) else none) = (l.filter p).map f := by
  induction l with
  | nil => rfl
  | cons a as ih =>
      cases hp : p a with
      | false => simp [List.filterMap_cons, List.filter_cons, hp, ih]
      | true => simp [List.filterMap_cons, List.filter_cons, hp, ih]

lemma downloadLoop_eq_filterMap (net : Str → RequestResult) (court_complex date_str : Str)
    (links : List PdfLink) :
    ∀ acc : List DownloadedFile,
      downloadLoop net court_complex date_str links acc
        = acc ++ links.filterMap (dlSucc net court_complex date_str) := by
  induction links with
  | nil => intro acc; simp [downloadLoop]
  | cons l rest ih =>
      intro acc
      rw [downloadLoop]
      cases hdl : download_pdf (net l.url) (make_filename court_complex l.judge date_str) with
      | none =>
          simp only [hdl, List.filterMap_cons, dlSucc, hdl, Option.map_none']
          exact ih acc
      | some fp =>
          simp only [hdl, List.filterMap_cons, dlSucc, hdl, Option.map_some']
          rw [ih]
          simp

lemma download_all_eq (net : Str → RequestResult) (parse : List Nat → List Anchor)
    (date_obj : Date) (court_complex : Str) :
    download_all_judges_pdfs net parse date_obj court_complex
      = (get_pdf_links_for_court_and_date net parse date_obj court_complex).filterMap
          (dlSucc net court_complex (format_date date_obj)) := by
  unfold download_all_judges_pdfs
  cases hl : get_pdf_links_for_court_and_date net parse date_obj court_complex with
  | nil => simp [hl]
  | cons l rest => simp [hl, downloadLoop_eq_filterMap]

lemma download_pdf_some {outcome : RequestResult} {filename fp : Str}
    (h : download_pdf outcome filename = some fp) :
    fp = str "downloaded_pdfs/" ++ filename := by
  unfold download_pdf at h
  cases hs : safe_request outcome with
  | none => rw [hs] at h; cases h
  | some response =>
      rw [hs] at h
      dsimp only at h
      by_cases hc : response.status_code = 200 ∧ 1000 < response.content.length
      · rw [if_pos hc] at h
        exact (Option.some_inj.mp h).symm
      · rw [if_neg hc] at h; cases h

lemma mem_sanitize_keep {c : Char} {s : Str} (hc : c ∈ sanitize_judge s) :
    keepChar c = true := by
  unfold sanitize_judge at hc
  have := List.take_subset 40 (s.filter keepChar) hc
  exact (List.mem_filter.mp this).2

lemma digitChar_ne_slash_dot (n : Nat) :
    digitChar n ≠ '/' ∧ digitChar n ≠ '\\' ∧ digitChar n ≠ '.' := by
  unfold digitChar
  split <;> try exact ⟨by decide, by decide, by decide⟩
  split <;> try exact ⟨by decide, by decide, by decide⟩
  split <;> try exact ⟨by decide, by decide, by decide⟩
  split <;> try exact ⟨by decide, by decide, by decide⟩
  split <;> try exact ⟨by decide, by decide, by decide⟩
  split <;> try exact ⟨by decide, by decide, by decide⟩
  split <;> try exact ⟨by decide, by decide, by decide⟩
  split <;> try exact ⟨by decide, by decide, by decide⟩
  split <;> exact ⟨by decide, by decide, by decide⟩

lemma append_ne_self {pre s : Str} (hpre : pre ≠ []) : pre ++ s ≠ s := by
  intro h
  have hlen := congrArg List.length h
  rw [List.length_append] at hlen
  have hz : pre.length = 0 := by omega
  exact hpre (List.length_eq_zero.mp hz)

lemma format_date_no_sep (d : Date) :
    '/' ∉ format_date d ∧ '\\' ∉ format_date d := by
  constructor <;>
  · intro hmem
    unfold format_date at hmem
    simp only [List.mem_cons, List.not_mem_nil, or_false] at hmem
    rcases hmem with h | h | h | h | h | h | h | h | h | h <;>
      first
        | exact absurd h.symm (digitChar_ne_slash_dot _).1
        | exact absurd h.symm (digitChar_ne_slash_dot _).2.1
        | exact absurd h (by decide)

/-! ### Concrete scenario fixtures -/

/-- A network oracle on which every GET succeeds with status 200 and a
1001-byte body. -/
def okNet : Str → RequestResult := fun _ => .ok ⟨200, List.replicate 1001 0⟩

/-- A parse oracle: the cause-list page holds one anchor for a Tis Hazari
judge. -/
def tisParse : List Nat → List Anchor := fun _ =>
  [⟨str "/causelist/j1.pdf", str "Tis Hazari Court Judge 1"⟩]

/-- The record that `download_all_judges_pdfs okNet tisParse` produces for the
date 05-04-2025 and the selected court "Tis Hazari Court". -/
def c1df : DownloadedFile :=
  ⟨str "Tis Hazari Court Judge 1",
   str "downloaded_pdfs/CauseList_Tis Hazari Court_Tis Hazari Court Judge 1_05-04-2025.pdf",
   str "CauseList_Tis Hazari Court_Tis Hazari Court Judge 1_05-04-2025.pdf"⟩

/-- A parse oracle with three anchors: two `.pdf` hrefs (one Tis Hazari, one
Karkardooma) and one non-`.pdf` href. -/
def c3parse : List Nat → List Anchor := fun _ =>
  [⟨str "/cl/a.pdf", str "Tis Hazari Court Judge 1"⟩,
   ⟨str "/cl/b.pdf", str "Karkardooma Judge 9"⟩,
   ⟨str "/cl/c.html", str "Tis Hazari Court Judge 2"⟩]

/-- A network oracle answering status 200 with a one-byte body. -/
def c3net : Str → RequestResult := fun _ => .ok ⟨200, [0]⟩

/-- A network oracle answering the non-2xx, non-error status 304 with a body. -/
def c7net : Str → RequestResult := fun _ => .ok ⟨304, [0]⟩

/-- A parse oracle with a single matching anchor. -/
def c7parse : List Nat → List Anchor := fun _ =>
  [⟨str "/cl/a.pdf", str "Tis Hazari Court"⟩]

/-- A network oracle on which every GET raises (transport error / timeout). -/
def c7errNet : Str → RequestResult := fun _ => .error

/-! ### Claims -/

/-- C1 (counterexample): the slug mapped from "Tis Hazari Court" is
"tis-hazari", yet with date 05-04-2025 and one successful download the
produced filename is `CauseList_Tis Hazari Court_..._05-04-2025.pdf` — it
embeds the display name, not the slug, so no filename starts with
`CauseList_tis-hazari_`. -/
theorem c1_counterexample :
    DELHI_COURTS.lookup (str "Tis Hazari Court") = some (str "tis-hazari") ∧
    (download_all_judges_pdfs okNet tisParse ⟨5, 4, 2025⟩ (str "Tis Hazari Court")).map
        DownloadedFile.filename
      = [str "CauseList_Tis Hazari Court_Tis Hazari Court Judge 1_05-04-2025.pdf"] ∧
    leadsWith (str "CauseList_tis-hazari_")
      (str "CauseList_Tis Hazari Court_Tis Hazari Court Judge 1_05-04-2025.pdf") = false :=
  ⟨by decide, by decide, by decide⟩

/-- C1 (amended): every downloaded file is named
`CauseList_{court_complex}_{sanitized_judge_first_40_chars}_{DD-MM-YYYY}.pdf`
where `court_complex` is the court-complex display name selected in the UI
(the slugs of `DELHI_COURTS` are never used in filenames), and its path is
that filename inside the fixed output directory. -/
theorem c1_amended (net : Str → RequestResult) (parse : List Nat → List Anchor)
    (date_obj : Date) (court_complex : Str) (df : DownloadedFile)
    (hdf : df ∈ download_all_judges_pdfs net parse date_obj court_complex) :
    df.filename
      = str "CauseList_" ++ court_complex ++ str "_" ++ sanitize_judge df.judge ++
          str "_" ++ format_date date_obj ++ str ".pdf" ∧
    df.filepath = str "downloaded_pdfs/" ++ df.filename := by
  rw [download_all_eq] at hdf
  rw [List.mem_filterMap] at hdf
  obtain ⟨l, hl, hsucc⟩ := hdf
  unfold dlSucc at hsucc
  cases hdl : download_pdf (net l.url)
      (make_filename court_complex l.judge (format_date date_obj)) with
  | none => rw [hdl] at hsucc; cases hsucc
  | some fp =>
      rw [hdl, Option.map_some'] at hsucc
      have hrec := Option.some_inj.mp hsucc
      subst hrec
      refine ⟨rfl, ?_⟩
      exact download_pdf_some hdl

/-- Witness for C1 (amended): the concrete Tis Hazari scenario record. -/
theorem c1_amended_witness :
    c1df ∈ download_all_judges_pdfs okNet tisParse ⟨5, 4, 2025⟩ (str "Tis Hazari Court") ∧
    (c1df.filename
        = str "CauseList_" ++ str "Tis Hazari Court" ++ str "_" ++
            sanitize_judge c1df.judge ++ str "_" ++ format_date ⟨5, 4, 2025⟩ ++ str ".pdf" ∧
      c1df.filepath = str "downloaded_pdfs/" ++ c1df.filename) := by
  have hmem : c1df ∈ download_all_judges_pdfs okNet tisParse ⟨5, 4, 2025⟩
      (str "Tis Hazari Court") := by decide
  exact ⟨hmem, c1_amended okNet tisParse ⟨5, 4, 2025⟩ (str "Tis Hazari Court") c1df hmem⟩

/-- C2 (counterexample): sanitization keeps the underscore (the regex class
`\w` includes it), so "Justice A_B" sanitizes to itself, while stripping
every character that is not alphanumeric, whitespace, or hyphen — as the
claim states — would give "Justice AB"; on the claim's own example
"Justice A/B (Court-5)" the two agree. -/
theorem c2_counterexample :
    sanitize_judge (str "Justice A_B") = str "Justice A_B" ∧
    spec_sanitize (str "Justice A_B") = str "Justice AB" ∧
    str "Justice A_B" ≠ str "Justice AB" ∧
    sanitize_judge (str "Justice A/B (Court-5)") = str "Justice AB Court-5" :=
  ⟨by decide, by decide, by decide, by decide⟩

/-- C2 (amended): sanitization keeps only characters that are alphanumeric,
underscore, whitespace, or hyphen, preserves their order (the result is a
sublist of the label), truncates to at most 40 characters, and sanitizes
"Justice A/B (Court-5)" to "Justice AB Court-5". -/
theorem c2_amended (judge : Str) :
    (sanitize_judge judge).length ≤ 40 ∧
    (sanitize_judge judge).Sublist judge ∧
    (∀ c ∈ sanitize_judge judge,
        c.isAlphanum = true ∨ c = '_' ∨ c.isWhitespace = true ∨ c = '-') ∧
    sanitize_judge (str "Justice A/B (Court-5)") = str "Justice AB Court-5" := by
  refine ⟨?_, ?_, ?_, by decide⟩
  · exact List.length_take_le 40 _
  · exact (List.take_sublist 40 _).trans (List.filter_sublist judge)
  · intro c hc
    have hk := mem_sanitize_keep hc
    unfold keepChar at hk
    simp only [Bool.or_eq_true, beq_iff_eq] at hk
    tauto

/-- Witness for C2 (amended): instantiation at a concrete judge label. -/
theorem c2_amended_witness :
    (sanitize_judge (str "Justice Anil Kumar_2")).length ≤ 40 ∧
    (sanitize_judge (str "Justice Anil Kumar_2")).Sublist (str "Justice Anil Kumar_2") ∧
    (∀ c ∈ sanitize_judge (str "Justice Anil Kumar_2"),
        c.isAlphanum = true ∨ c = '_' ∨ c.isWhitespace = true ∨ c = '-') ∧
    sanitize_judge (str "Justice A/B (Court-5)") = str "Justice AB Court-5" :=
  c2_amended (str "Justice Anil Kumar_2")

/-- C3: with a fetched page and a non-empty court-complex string, link
discovery returns exactly the anchors whose href matches the `.pdf` pattern,
whose stripped visible text is non-empty, and whose text contains the
court-complex string case-insensitively — each mapped to its PdfLink. -/
theorem c3_link_discovery_filter (net : Str → RequestResult)
    (parse : List Nat → List Anchor) (date_obj : Date) (court_complex : Str)
    (response : Response)
    (hnet : safe_request (net DELHI_CAUSELIST_URL) = some response)
    (hcc : court_complex ≠ []) :
    get_pdf_links_for_court_and_date net parse date_obj court_complex
      = ((parse response.content).filter (anchorKeeps court_complex)).map anchorLink := by
  unfold get_pdf_links_for_court_and_date
  rw [hnet]
  dsimp only
  have hfun : processAnchor court_complex
      = fun a => if anchorKeeps court_complex a then some (anchorLink a) else none :=
    funext (processAnchor_eq hcc)
  rw [hfun, filterMap_ite_eq]

/-- Witness for C3: a page with two matching-text anchors (one of which has a
non-`.pdf` href) and one non-matching anchor yields exactly the one link. -/
theorem c3_witness :
    safe_request (c3net DELHI_CAUSELIST_URL) = some ⟨200, [0]⟩ ∧
    (str "tis hazari" ≠ ([] : Str)) ∧
    get_pdf_links_for_court_and_date c3net c3parse ⟨5, 4, 2025⟩ (str "tis hazari")
      = [⟨str "Tis Hazari Court Judge 1", DELHI_BASE_URL ++ str "/cl/a.pdf",
          str "Tis Hazari Court Judge 1"⟩] := by
  refine ⟨by decide, by decide, ?_⟩
  have h := c3_link_discovery_filter c3net c3parse ⟨5, 4, 2025⟩ (str "tis hazari")
    ⟨200, [0]⟩ (by decide) (by decide)
  rw [h]
  decide

/-- C4 (counterexample): the href "ftp://example.com/a.pdf" has a scheme, yet
normalization does not leave it unchanged — the code tests
`startswith('http')`, not scheme presence, so the origin is prefixed. -/
theorem c4_counterexample :
    specHasScheme (str "ftp://example.com/a.pdf") = true ∧
    makeAbsoluteUrl (str "ftp://example.com/a.pdf")
      = DELHI_BASE_URL ++ str "/" ++ str "ftp://example.com/a.pdf" ∧
    makeAbsoluteUrl (str "ftp://example.com/a.pdf") ≠ str "ftp://example.com/a.pdf" :=
  ⟨by decide, by decide, by decide⟩

/-- C4 (amended): normalization leaves an href unchanged exactly when it
starts with the literal "http"; otherwise it prefixes the site origin,
inserting a separating slash only when the href does not already start with
one; in particular "/path/file.pdf" and "path/file.pdf" both normalize to
`origin + /path/file.pdf`. -/
theorem c4_amended (href : Str) :
    (makeAbsoluteUrl href = href ↔ leadsWith (str "http") href = true) ∧
    (leadsWith (str "http") href = false →
        makeAbsoluteUrl href
          = if leadsWith (str "/") href then DELHI_BASE_URL ++ href
            else DELHI_BASE_URL ++ str "/" ++ href) ∧
    makeAbsoluteUrl (str "/path/file.pdf") = DELHI_BASE_URL ++ str "/path/file.pdf" ∧
    makeAbsoluteUrl (str "path/file.pdf") = DELHI_BASE_URL ++ str "/path/file.pdf" := by
  have hbr : leadsWith (str "http") href = false →
      makeAbsoluteUrl href
        = if leadsWith (str "/") href then DELHI_BASE_URL ++ href
          else DELHI_BASE_URL ++ str "/" ++ href := by
    intro hl
    unfold makeAbsoluteUrl
    rw [hl]
    simp
  refine ⟨⟨?_, ?_⟩, hbr, by decide, by decide⟩
  · intro h
    cases hl : leadsWith (str "http") href with
    | true => rfl
    | false =>
        exfalso
        rw [hbr hl] at h
        cases hsl : leadsWith (str "/") href with
        | true =>
            rw [hsl] at h
            simp only [if_true] at h
            exact append_ne_self (by decide) h
        | false =>
            rw [hsl] at h
            simp only [Bool.false_eq_true, if_false] at h
            exact append_ne_self (by decide) h
  · intro hl
    unfold makeAbsoluteUrl
    rw [hl]
    simp

/-- Witness for C4 (amended): the no-leading-slash branch at a concrete href. -/
theorem c4_amended_witness :
    leadsWith (str "http") (str "path/file.pdf") = false ∧
    makeAbsoluteUrl (str "path/file.pdf")
      = if leadsWith (str "/") (str "path/file.pdf") then DELHI_BASE_URL ++ str "path/file.pdf"
        else DELHI_BASE_URL ++ str "/" ++ str "path/file.pdf" :=
  ⟨by decide, (c4_amended (str "path/file.pdf")).2.1 (by decide)⟩

/-- C5: a response whose body has fewer than 1000 bytes never produces a
DownloadedFile record, whatever its status code: `download_pdf` returns no
filepath. -/
theorem c5_small_body_no_record (response : Response) (filename : Str)
    (hsmall : response.content.length < 1000) :
    download_pdf (.ok response) filename = none := by
  have hsr : safe_request (.ok response)
      = if 400 ≤ response.status_code ∧ response.status_code < 600 then none
        else some response := rfl
  unfold download_pdf
  rw [hsr]
  by_cases hs : 400 ≤ response.status_code ∧ response.status_code < 600
  · rw [if_pos hs]
  · rw [if_neg hs]
    dsimp only
    rw [if_neg (by omega)]

/-- Witness for C5: an empty 200 response yields no record. -/
theorem c5_witness :
    (⟨200, []⟩ : Response).content.length < 1000 ∧
    download_pdf (.ok ⟨200, []⟩) (str "CauseList_x.pdf") = none :=
  ⟨by decide, c5_small_body_no_record ⟨200, []⟩ (str "CauseList_x.pdf") (by decide)⟩

/-- C6: the batch downloader never aborts on an individual failure: its
result is exactly the per-link outcomes of `download_pdf`, kept in link
order, with the failed items dropped. -/
theorem c6_batch_isolation (net : Str → RequestResult) (parse : List Nat → List Anchor)
    (date_obj : Date) (court_complex : Str) :
    download_all_judges_pdfs net parse date_obj court_complex
      = (get_pdf_links_for_court_and_date net parse date_obj court_complex).filterMap
          (dlSucc net court_complex (format_date date_obj)) :=
  download_all_eq net parse date_obj court_complex

/-- C7 (counterexample): a fetch that returns the non-2xx status 304 with a
parseable body is not an error for `safe_request` (which only nullifies
statuses 400-599), so link discovery returns a non-empty result. -/
theorem c7_counterexample :
    c7net DELHI_CAUSELIST_URL = .ok ⟨304, [0]⟩ ∧
    is2xx 304 = false ∧
    get_pdf_links_for_court_and_date c7net c7parse ⟨5, 4, 2025⟩ (str "tis hazari")
      = [⟨str "Tis Hazari Court", DELHI_BASE_URL ++ str "/cl/a.pdf",
          str "Tis Hazari Court"⟩] :=
  ⟨rfl, by decide, by decide⟩

/-- C7 (amended): when the fetch of the cause-list page raises (transport
error or timeout), or returns an HTTP status in 400-599, link discovery
returns the empty list. -/
theorem c7_amended (net : Str → RequestResult) (parse : List Nat → List Anchor)
    (date_obj : Date) (court_complex : Str) :
    (net DELHI_CAUSELIST_URL = .error →
        get_pdf_links_for_court_and_date net parse date_obj court_complex = []) ∧
    (∀ response : Response, net DELHI_CAUSELIST_URL = .ok response →
        400 ≤ response.status_code → response.status_code < 600 →
        get_pdf_links_for_court_and_date net parse date_obj court_complex = []) := by
  constructor
  · intro h
    unfold get_pdf_links_for_court_and_date
    rw [h]
    rfl
  · intro response h h4 h6
    have hsr : safe_request (net DELHI_CAUSELIST_URL) = none := by
      rw [h]
      show (if 400 ≤ response.status_code ∧ response.status_code < 600 then none
        else some response) = none
      rw [if_pos ⟨h4, h6⟩]
    unfold get_pdf_links_for_court_and_date
    rw [hsr]

/-- Witness for C7 (amended): a failing transport yields the empty result. -/
theorem c7_amended_witness :
    c7errNet DELHI_CAUSELIST_URL = .error ∧
    get_pdf_links_for_court_and_date c7errNet c7parse ⟨5, 4, 2025⟩ (str "tis hazari") = [] :=
  ⟨rfl, (c7_amended c7errNet c7parse ⟨5, 4, 2025⟩ (str "tis hazari")).1 rfl⟩

/-- C8: link discovery does not depend on the target date: with the same
network, parser and court-complex string, any two dates give the same
sequence of PdfLinks (the date is used neither in the fetch nor in the
filtering). -/
theorem c8_date_not_used (net : Str → RequestResult) (parse : List Nat → List Anchor)
    (court_complex : Str) (d1 d2 : Date) :
    get_pdf_links_for_court_and_date net parse d1 court_complex
      = get_pdf_links_for_court_and_date net parse d2 court_complex := rfl

/-- C9: `download_pdf` returns a filepath exactly when the status is 200 and
the body is strictly longer than 1000 bytes; a body of exactly 1000 bytes is
rejected, as is a raised request. -/
theorem c9_threshold_strict (response : Response) (filename : Str) :
    ((download_pdf (.ok response) filename).isSome = true ↔
        response.status_code = 200 ∧ 1000 < response.content.length) ∧
    download_pdf (.ok ⟨200, List.replicate 1000 0⟩) filename = none ∧
    download_pdf .error filename = none := by
  refine ⟨?_, ?_, rfl⟩
  · have hsr : safe_request (.ok response)
        = if 400 ≤ response.status_code ∧ response.status_code < 600 then none
          else some response := rfl
    unfold download_pdf
    rw [hsr]
    by_cases hs : 400 ≤ response.status_code ∧ response.status_code < 600
    · rw [if_pos hs]
      dsimp only
      simp only [Option.isSome_none, Bool.false_eq_true, false_iff]
      intro hc
      omega
    · rw [if_neg hs]
      dsimp only
      by_cases hc : response.status_code = 200 ∧ 1000 < response.content.length
      · rw [if_pos hc]
        simp [hc]
      · rw [if_neg hc]
        simp [hc]
  · have hsr : safe_request (.ok ⟨200, List.replicate 1000 0⟩)
        = some ⟨200, List.replicate 1000 0⟩ := rfl
    unfold download_pdf
    rw [hsr]
    dsimp only
    rw [if_neg (by simp)]

/-- Witness for C9: a 1001-byte 200 response is accepted, a 1000-byte one is
rejected. -/
theorem c9_witness :
    (download_pdf (.ok ⟨200, List.replicate 1001 0⟩) (str "a.pdf")).isSome = true ∧
    download_pdf (.ok ⟨200, List.replicate 1000 0⟩) (str "a.pdf") = none :=
  ⟨((c9_threshold_strict ⟨200, List.replicate 1001 0⟩ (str "a.pdf")).1).mpr
      ⟨rfl, by simp⟩,
   (c9_threshold_strict ⟨200, List.replicate 1000 0⟩ (str "a.pdf")).2.1⟩

/-- C10: the sanitized judge string contains no slash, backslash or dot, and
for any court complex of the enumerated set the composed filename contains no
path separator; the written path is that filename directly inside
`downloaded_pdfs`, whatever the anchor text was. -/
theorem c10_sanitization_path_safety (judge : Str) (court_complex : Str) (d : Date)
    (hcc : court_complex ∈ DELHI_COURTS.map Prod.fst) :
    ('/' ∉ sanitize_judge judge ∧ '\\' ∉ sanitize_judge judge ∧
      '.' ∉ sanitize_judge judge) ∧
    '/' ∉ make_filename court_complex judge (format_date d) ∧
    '\\' ∉ make_filename court_complex judge (format_date d) := by
  have hsan : ∀ s : Str, '/' ∉ sanitize_judge s ∧ '\\' ∉ sanitize_judge s ∧
      '.' ∉ sanitize_judge s := by
    intro s
    refine ⟨?_, ?_, ?_⟩ <;>
    · intro hmem
      have hk := mem_sanitize_keep hmem
      exact absurd hk (by decide)
  have hccs := hcc
  simp only [DELHI_COURTS, List.map_cons, List.map_nil, List.mem_cons,
    List.not_mem_nil, or_false] at hccs
  refine ⟨hsan judge, ?_, ?_⟩
  · intro hmem
    unfold make_filename at hmem
    simp only [List.mem_append] at hmem
    rcases hmem with (((((h | h) | h) | h) | h) | h) | h
    · exact absurd h (by decide)
    · rcases hccs with rfl | rfl | rfl | rfl | rfl <;> exact absurd h (by decide)
    · exact absurd h (by decide)
    · exact absurd h (hsan judge).1
    · exact absurd h (by decide)
    · exact absurd h (format_date_no_sep d).1
    · exact absurd h (by decide)
  · intro hmem
    unfold make_filename at hmem
    simp only [List.mem_append] at hmem
    rcases hmem with (((((h | h) | h) | h) | h) | h) | h
    · exact absurd h (by decide)
    · rcases hccs with rfl | rfl | rfl | rfl | rfl <;> exact absurd h (by decide)
    · exact absurd h (by decide)
    · exact absurd h (hsan judge).2.1
    · exact absurd h (by decide)
    · exact absurd h (format_date_no_sep d).2
    · exact absurd h (by decide)

/-- Witness for C10: a crafted traversal-like anchor text for a real court. -/
theorem c10_witness :
    (str "Tis Hazari Court") ∈ DELHI_COURTS.map Prod.fst ∧
    (('/' ∉ sanitize_judge (str "../../etc/passwd") ∧
        '\\' ∉ sanitize_judge (str "../../etc/passwd") ∧
        '.' ∉ sanitize_judge (str "../../etc/passwd")) ∧
      '/' ∉ make_filename (str "Tis Hazari Court") (str "../../etc/passwd")
          (format_date ⟨5, 4, 2025⟩) ∧
      '\\' ∉ make_filename (str "Tis Hazari Court") (str "../../etc/passwd")
          (format_date ⟨5, 4, 2025⟩)) :=
  ⟨by decide, c10_sanitization_path_safety (str "../../etc/passwd")
    (str "Tis Hazari Court") ⟨5, 4, 2025⟩ (by decide)⟩

end ECourts
